import Mathlib

/-!
Verification of the deadline-tracking and pre-submission-validation engine of
the prior-auth dispute tracker.

The definitions below are a shallow embedding of the JavaScript source:

* the `PriorAuthorization` mongoose schema methods `updateDeadlineFlags`,
  `runPreSubmissionValidation`, `validateCPTCode`, `validateICDCode`,
  `validatePatientDemographics`, `validateInsurance`, `validateMedicalNecessity`,
  `validateDocumentation`, `validatePriorAuthHistory`;
* the `DeadlineMonitoringService` methods `checkDeadlines`, `getDeadlineSummary`,
  `updateDisputeDeadline`, `resolveDeadlineFlag`.

Timestamps are modelled as integer milliseconds (JS `Date` arithmetic coerces
dates to their millisecond epoch values).  JS `Math.ceil` on a quotient of
integer millisecond quantities is modelled exactly by integer ceiling division;
note that JS `Math.ceil` of a fraction in (-1, 0) yields `-0`, which compares
equal to `0`, exactly as integer ceiling division does.  Mongoose subdocument
ids are modelled as `Nat` ids; the generated id of a freshly pushed flag is
passed as an explicit parameter.  Fallible JS code (a `throw` / rejected
promise) is modelled with `Except JsError`.
-/

namespace PriorAuth

/-- A JavaScript runtime error (the only kind these code paths can raise is a
`TypeError` from dereferencing `null`/`undefined`, plus injected persistence /
notifier failures in the scheduler model). -/
inductive JsError where
  | typeError (msg : String)
  | ioFailure (msg : String)
deriving DecidableEq, Repr

/-- `true` exactly on the `error` constructor. -/
def isError {ε α : Type} (e : Except ε α) : Bool :=
  match e with
  | .error _ => true
  | .ok _ => false

/-! ## Deadline flags (schema `deadlines` subdocument, part_001 lines 149-186) -/

/-- `deadlineFlags[].type` enum: `['warning', 'urgent', 'overdue']`. -/
inductive FlagType where
  | warning
  | urgent
  | overdue
deriving DecidableEq, Repr

/-- One element of `deadlines.deadlineFlags`. -/
structure DeadlineFlag where
  type : FlagType
  daysRemaining : Int
  flaggedAt : Int
  resolved : Bool
  id : Nat
deriving DecidableEq, Repr

/-- The `deadlines` subdocument of a `PriorAuthorization`. -/
structure Deadlines where
  responseDeadline : Option Int
  urgentResponseDeadline : Option Int
  externalReviewDeadline : Option Int
  deadlineFlags : List DeadlineFlag
deriving DecidableEq, Repr

/-- `1000 * 60 * 60 * 24` milliseconds. -/
def msPerDay : Int := 1000 * 60 * 60 * 24

/-- JS `Math.ceil(a / b)` for integer `a` and positive integer `b`
(ceiling division; `Math.ceil` of a fraction in `(-1,0)` is `-0 = 0`,
matching the ceiling). -/
def jsCeilDiv (a b : Int) : Int := -((-a).fdiv b)

/-- `priorAuthorizationSchema.methods.updateDeadlineFlags` (part_001 292-325).
`now` stands for the `new Date()` taken at entry (also used as `flaggedAt` of
a pushed flag), `freshId` for the subdocument id mongoose generates for the
pushed flag. -/
def updateDeadlineFlags (d : Deadlines) (now : Int) (freshId : Nat) : Deadlines :=
  match d.responseDeadline with
  | none => d
  | some responseDeadline =>
    let daysRemaining := jsCeilDiv (responseDeadline - now) msPerDay
    -- Clear existing unresolved flags
    let kept := d.deadlineFlags.filter (fun flag => flag.resolved)
    if daysRemaining < 0 then
      -- Overdue
      { d with deadlineFlags :=
          kept ++ [{ type := .overdue, daysRemaining := |daysRemaining|,
                     flaggedAt := now, resolved := false, id := freshId }] }
    else if daysRemaining ≤ 3 then
      -- Urgent - 3 days or less
      { d with deadlineFlags :=
          kept ++ [{ type := .urgent, daysRemaining := daysRemaining,
                     flaggedAt := now, resolved := false, id := freshId }] }
    else if daysRemaining ≤ 7 then
      -- Warning - 7 days or less
      { d with deadlineFlags :=
          kept ++ [{ type := .warning, daysRemaining := daysRemaining,
                     flaggedAt := now, resolved := false, id := freshId }] }
    else
      { d with deadlineFlags := kept }

/-- The `deadlineType` parameter of `updateDisputeDeadline` (one of the three
date fields of `deadlines`). -/
inductive DeadlineField where
  | responseDeadline
  | urgentResponseDeadline
  | externalReviewDeadline
deriving DecidableEq, Repr

/-- `dispute.deadlines[deadlineType] = new Date(newDeadline)`. -/
def setDeadlineField (d : Deadlines) (t : DeadlineField) (v : Int) : Deadlines :=
  match t with
  | .responseDeadline => { d with responseDeadline := some v }
  | .urgentResponseDeadline => { d with urgentResponseDeadline := some v }
  | .externalReviewDeadline => { d with externalReviewDeadline := some v }

/-- `DeadlineMonitoringService.updateDisputeDeadline` (deadlineMonitoringService.js
228-254), restricted to the in-memory mutation it performs on the found dispute:
set the deadline field, mark every existing flag resolved, re-run
`updateDeadlineFlags`. -/
def updateDisputeDeadline (d : Deadlines) (newDeadline : Int) (deadlineType : DeadlineField)
    (now : Int) (freshId : Nat) : Deadlines :=
  let d1 := setDeadlineField d deadlineType newDeadline
  let d2 := { d1 with deadlineFlags := d1.deadlineFlags.map (fun flag => { flag with resolved := true }) }
  updateDeadlineFlags d2 now freshId

/-- `dispute.deadlines.deadlineFlags.id(flagId)` followed by `flag.resolved = true`:
resolve the (first) flag with the given subdocument id, no-op when absent. -/
def resolveFlagInList : List DeadlineFlag → Nat → List DeadlineFlag
  | [], _ => []
  | f :: fs, flagId =>
    if f.id = flagId then { f with resolved := true } :: fs
    else f :: resolveFlagInList fs flagId

/-- `DeadlineMonitoringService.resolveDeadlineFlag` (deadlineMonitoringService.js
257-276), restricted to the in-memory mutation on the found dispute. -/
def resolveDeadlineFlag (d : Deadlines) (flagId : Nat) : Deadlines :=
  { d with deadlineFlags := resolveFlagInList d.deadlineFlags flagId }

/-- The unresolved flags of a flag list. -/
def unresolvedFlags (fs : List DeadlineFlag) : List DeadlineFlag :=
  fs.filter (fun f => !f.resolved)

/-- Observable unresolved-flag state: type and daysRemaining of each unresolved
flag, in list order. -/
def flagState (fs : List DeadlineFlag) : List (FlagType × Int) :=
  (unresolvedFlags fs).map (fun f => (f.type, f.daysRemaining))

/-! ## Pre-submission validation (part_001 lines 328-705)

The `details` payloads of check results vary per check and are not load-bearing
for any property below; the embedding keeps `checkType`, `status` and `message`.
`issues`/`warnings` accumulators are kept, since the final status branches on
them. -/

/-- `validation.preSubmissionChecks[].status` enum. -/
inductive CheckStatus where
  | pending
  | passed
  | failed
  | warning
deriving DecidableEq, Repr

/-- `validation.preSubmissionChecks[].checkType` enum. -/
inductive CheckType where
  | cpt_code_validation
  | icd_code_validation
  | patient_demographics
  | insurance_verification
  | medical_necessity
  | documentation_completeness
  | prior_authorization_history
deriving DecidableEq, Repr

/-- One pre-submission check result. -/
structure CheckResult where
  checkType : CheckType
  status : CheckStatus
  message : String
deriving DecidableEq, Repr

/-- JS falsiness of an optional string field: `undefined`/`null` or `""`. -/
def jsStrFalsy (s : Option String) : Bool :=
  match s with
  | none => true
  | some s => decide (s = "")

/-- JS whitespace as stripped by `String.prototype.trim` (ASCII part). -/
def isJsWhitespace (c : Char) : Bool :=
  decide (c = ' ') || decide (c = '\t') || decide (c = '\n') || decide (c = '\r') ||
  decide (c.toNat = 11) || decide (c.toNat = 12)

/-- JS `s.trim()` on the character list. -/
def jsTrim (cs : List Char) : List Char :=
  ((cs.dropWhile isJsWhitespace).reverse.dropWhile isJsWhitespace).reverse

/-- `!field || field.trim().length < n` on an optional string field. -/
def strFalsyOrShort (s : Option String) (n : Nat) : Bool :=
  match s with
  | none => true
  | some s => decide (s = "") || decide ((jsTrim s.data).length < n)

/-- Regex class `\d`. -/
def isDigitChar (c : Char) : Bool := 48 ≤ c.toNat && c.toNat ≤ 57

/-- Regex class `[A-Z]`. -/
def isUpperChar (c : Char) : Bool := 65 ≤ c.toNat && c.toNat ≤ 90

/-- Regex class `[a-z]`. -/
def isLowerChar (c : Char) : Bool := 97 ≤ c.toNat && c.toNat ≤ 122

/-- Regex class `[A-Z0-9]` (the modifier characters of the source CPT regex). -/
def isModChar (c : Char) : Bool := isUpperChar c || isDigitChar c

/-- `\d{5}`. -/
def fiveDigits (a b c d e : Char) : Bool :=
  isDigitChar a && isDigitChar b && isDigitChar c && isDigitChar d && isDigitChar e

/-- The source regex `^\d{5}(-[A-Z0-9]{2})?$` (part_001 line 395). -/
def cptPatternTest (s : String) : Bool :=
  match s.data with
  | [a, b, c, d, e] => fiveDigits a b c d e
  | [a, b, c, d, e, hy, f, g] =>
      fiveDigits a b c d e && decide (hy = '-') && isModChar f && isModChar g
  | _ => false

/-- Value of a decimal digit character. -/
def digitVal (c : Char) : Nat := c.toNat - 48

/-- JS `parseInt` on a string of decimal digits. -/
def parseDigits (cs : List Char) : Nat := cs.foldl (fun n c => n * 10 + digitVal c) 0

/-- `parseInt(serviceCode.split('-')[0])`: the digits before the first `-`. -/
def cptNumericPart (s : String) : Nat :=
  parseDigits (s.data.takeWhile (fun c => c ≠ '-'))

/-- `priorAuthorizationSchema.methods.validateCPTCode` (part_001 382-422). -/
def validateCPTCode (serviceCode : Option String) : CheckResult :=
  if jsStrFalsy serviceCode then
    { checkType := .cpt_code_validation, status := .failed,
      message := "CPT/Service code is required" }
  else
    let s := serviceCode.getD ""
    if !cptPatternTest s then
      { checkType := .cpt_code_validation, status := .failed,
        message := "Invalid CPT code format. Should be 5 digits (e.g., 99213) or 5 digits with modifier (e.g., 99213-25)" }
    else if cptNumericPart s < 10000 || 99999 < cptNumericPart s then
      { checkType := .cpt_code_validation, status := .failed,
        message := "CPT code out of valid range" }
    else
      { checkType := .cpt_code_validation, status := .passed,
        message := "CPT code format is valid" }

/-- The source regex `^[A-Z]\d{2}(\.\d{1,4})?$` (part_001 line 437). -/
def icd10PatternTest (s : String) : Bool :=
  match s.data with
  | [a, b, c] => isUpperChar a && isDigitChar b && isDigitChar c
  | a :: b :: c :: dot :: rest =>
      isUpperChar a && isDigitChar b && isDigitChar c && decide (dot = '.') &&
      decide (1 ≤ rest.length) && decide (rest.length ≤ 4) && rest.all isDigitChar
  | _ => false

/-- `priorAuthorizationSchema.methods.validateICDCode` (part_001 424-453). -/
def validateICDCode (diagnosisCode : Option String) : CheckResult :=
  if jsStrFalsy diagnosisCode then
    { checkType := .icd_code_validation, status := .warning,
      message := "ICD diagnosis code is recommended for stronger medical necessity" }
  else if !icd10PatternTest (diagnosisCode.getD "") then
    { checkType := .icd_code_validation, status := .failed,
      message := "Invalid ICD-10 code format. Should be like A12.34 or Z12" }
  else
    { checkType := .icd_code_validation, status := .passed,
      message := "ICD code format is valid" }

/-- `patient.insuranceInfo` (part_000 27-51; a mongoose nested path is always
materialised as an object on a document, its fields may be absent). -/
structure InsuranceInfo where
  provider : Option String
  policyNumber : Option String
  groupNumber : Option String
  subscriberId : Option String
  planName : Option String
  effectiveDate : Option Int
  expirationDate : Option Int
deriving DecidableEq, Repr

/-- One entry of `patient.documents` (only the fields the engine reads). -/
structure PatientDocument where
  documentType : String
  uploadedAt : Int
deriving DecidableEq, Repr

/-- `patient.medicalInfo` (only the `diagnosis` array count is read; the
entries themselves are opaque to the engine). -/
structure MedicalInfo where
  diagnosis : List String
deriving DecidableEq, Repr

/-- A resolved `Patient` document (part_000).  `firstName`/`lastName`/
`dateOfBirth` are required by the schema but the engine still branches on
their absence, so they are optional here. -/
structure Patient where
  firstName : Option String
  lastName : Option String
  dateOfBirth : Option Int
  insuranceInfo : InsuranceInfo
  medicalInfo : MedicalInfo
  documents : List PatientDocument
deriving DecidableEq, Repr

/-- `365.25 * 24 * 60 * 60 * 1000` milliseconds. -/
def millisPerYear : Int := 31557600000

/-- `priorAuthorizationSchema.methods.validatePatientDemographics`
(part_001 455-501).  A `null` populated `patient` makes `patient.firstName`
throw a `TypeError`. -/
def validatePatientDemographics (patient : Option Patient) (now : Int) :
    Except JsError CheckResult :=
  match patient with
  | none => .error (.typeError "Cannot read properties of null")
  | some patient =>
    let issues : List String :=
      (if strFalsyOrShort patient.firstName 2 then
        ["Patient first name is missing or too short"] else []) ++
      (if strFalsyOrShort patient.lastName 2 then
        ["Patient last name is missing or too short"] else []) ++
      (match patient.dateOfBirth with
       | none => ["Patient date of birth is required"]
       | some dob =>
         -- age = (now - dob) / (365.25 * 24 * 60 * 60 * 1000); invalid when
         -- age < 0 or age > 150, i.e. now - dob < 0 or now - dob > 150 years
         if now - dob < 0 || 150 * millisPerYear < now - dob then
           ["Patient date of birth appears to be invalid"] else []) ++
      (if jsStrFalsy patient.insuranceInfo.provider then
        ["Insurance provider information is missing"] else []) ++
      (if jsStrFalsy patient.insuranceInfo.policyNumber then
        ["Insurance policy number is missing"] else [])
    if 0 < issues.length then
      .ok { checkType := .patient_demographics, status := .failed,
            message := "Patient demographic information is incomplete" }
    else
      .ok { checkType := .patient_demographics, status := .passed,
            message := "Patient demographic information is complete" }

/-- `priorAuthorizationSchema.methods.validateInsurance` (part_001 503-547).
`this.patient.insuranceInfo` throws on a `null` patient. -/
def validateInsurance (patient : Option Patient) (now : Int) :
    Except JsError CheckResult :=
  match patient with
  | none => .error (.typeError "Cannot read properties of null")
  | some patient =>
    let insurance := patient.insuranceInfo
    let issues : List String :=
      (if strFalsyOrShort insurance.provider 3 then
        ["Insurance provider name is required"] else []) ++
      (if strFalsyOrShort insurance.policyNumber 5 then
        ["Valid insurance policy number is required"] else []) ++
      (match insurance.expirationDate with
       | some exp => if exp < now then ["Insurance policy appears to be expired"] else []
       | none => [])
    if 0 < issues.length then
      .ok { checkType := .insurance_verification, status := .failed,
            message := "Insurance information needs verification" }
    else if jsStrFalsy insurance.groupNumber then
      .ok { checkType := .insurance_verification, status := .warning,
            message := "Insurance group number is missing - may be required by some payers" }
    else
      .ok { checkType := .insurance_verification, status := .passed,
            message := "Insurance information appears complete" }

/-- `needle` occurs as a contiguous substring of `hay`. -/
def containsSub (hay needle : List Char) : Bool :=
  match hay with
  | [] => needle.isEmpty
  | _ :: t => needle.isPrefixOf hay || containsSub t needle

/-- JS `/k1|k2|.../i.test(s)`: some alternative (given lowercase) occurs in
`s`, case-insensitively. -/
def testAnyKeyword (keywords : List String) (s : String) : Bool :=
  keywords.any (fun k => containsSub (s.data.map Char.toLower) k.data)

/-- `priorAuthorizationSchema.methods.validateMedicalNecessity`
(part_001 549-592). -/
def validateMedicalNecessity (clinicalJustification : Option String) : CheckResult :=
  if strFalsyOrShort clinicalJustification 50 then
    { checkType := .medical_necessity, status := .failed,
      message := "Clinical justification must be at least 50 characters and provide detailed medical necessity" }
  else
    let justification := clinicalJustification.getD ""
    let hasSymptoms := testAnyKeyword
      ["symptom", "pain", "dysfunction", "impair", "limit", "restrict"] justification
    let hasTreatment := testAnyKeyword
      ["treat", "therapy", "intervention", "procedure", "medication"] justification
    let hasOutcome := testAnyKeyword
      ["improve", "resolve", "prevent", "manage", "control"] justification
    let missingCount : Nat :=
      (if hasSymptoms then 0 else 1) + (if hasTreatment then 0 else 1) +
        (if hasOutcome then 0 else 1)
    if 1 < missingCount then
      { checkType := .medical_necessity, status := .warning,
        message := "Clinical justification could be strengthened" }
    else
      { checkType := .medical_necessity, status := .passed,
        message := "Clinical justification appears comprehensive" }

/-- The `denial` subdocument fields read by the engine; `denialDocument` is
the presence of the uploaded-document subdocument. -/
structure Denial where
  denialReason : Option String
  denialDocument : Bool
deriving DecidableEq, Repr

/-- `priorAuthorizationSchema.methods.validateDocumentation`
(part_001 594-650).  `patient.medicalInfo` throws on a `null` patient;
`diagnosis` and `documents` are mongoose arrays (present, possibly empty) on a
real document. -/
def validateDocumentation (denial : Denial) (patient : Option Patient) (now : Int) :
    Except JsError CheckResult :=
  match patient with
  | none => .error (.typeError "Cannot read properties of null")
  | some patient =>
    let issues : List String :=
      if !denial.denialDocument && jsStrFalsy denial.denialReason then
        ["Denial letter or documentation is missing"]
      else []
    let warnings : List String :=
      (if patient.medicalInfo.diagnosis.length = 0 then
        ["Patient diagnosis information is missing from medical records"] else []) ++
      (if patient.documents.length = 0 then
        ["No supporting medical documents uploaded"] else []) ++
      (let sixMonthsAgo := now - 6 * 30 * 24 * 60 * 60 * 1000
       let recentDocs := patient.documents.filter (fun doc =>
         sixMonthsAgo < doc.uploadedAt &&
           (["ehr", "lab_results", "imaging"].contains doc.documentType))
       if recentDocs.length = 0 then
         ["No recent medical documentation (within 6 months) found"] else [])
    if 0 < issues.length then
      .ok { checkType := .documentation_completeness, status := .failed,
            message := "Critical documentation is missing" }
    else if 0 < warnings.length then
      .ok { checkType := .documentation_completeness, status := .warning,
            message := "Documentation could be more complete" }
    else
      .ok { checkType := .documentation_completeness, status := .passed,
            message := "Documentation appears complete" }

/-- Another `PriorAuthorization` row as consulted by the
`validatePriorAuthHistory` query and resolution filters. -/
structure PriorAuthRow where
  id : Nat
  patient : Nat
  serviceCode : Option String
  createdAt : Int
  resolutionOutcome : Option String
deriving DecidableEq, Repr

/-- `priorAuthorizationSchema.methods.validatePriorAuthHistory`
(part_001 652-705).  `db` is the collection the `find` query runs over. -/
def validatePriorAuthHistory (selfId patientId : Nat) (serviceCode : Option String)
    (db : List PriorAuthRow) (now : Int) : CheckResult :=
  let similarRequests := db.filter (fun r =>
    decide (r.patient = patientId) && decide (r.serviceCode = serviceCode) &&
    decide (r.id ≠ selfId) && decide (now - 90 * 24 * 60 * 60 * 1000 ≤ r.createdAt))
  if 0 < similarRequests.length then
    let approvedRequests := similarRequests.filter
      (fun r => decide (r.resolutionOutcome = some "approved"))
    if 0 < approvedRequests.length then
      { checkType := .prior_authorization_history, status := .warning,
        message := "Similar service was recently approved - verify if new request is needed" }
    else
      let deniedRequests := similarRequests.filter
        (fun r => decide (r.resolutionOutcome = some "denied"))
      if 0 < deniedRequests.length then
        { checkType := .prior_authorization_history, status := .warning,
          message := "Similar service was recently denied - ensure new information supports this request" }
      else
        { checkType := .prior_authorization_history, status := .passed,
          message := "No conflicting prior authorization history found" }
  else
    { checkType := .prior_authorization_history, status := .passed,
      message := "No conflicting prior authorization history found" }

/-- The `requestDetails` fields read by the validation engine. -/
structure RequestDetails where
  requestedService : String
  serviceCode : Option String
  diagnosisCode : Option String
  clinicalJustification : Option String
deriving DecidableEq, Repr

/-- The dispute fields read by `runPreSubmissionValidation`. -/
structure DisputeRecord where
  id : Nat
  patient : Nat
  requestDetails : RequestDetails
  denial : Denial
deriving DecidableEq, Repr

/-- The `validation` subdocument written by `runPreSubmissionValidation`. -/
structure Validation where
  preSubmissionChecks : List CheckResult
  overallValidationStatus : CheckStatus
  canSubmit : Bool
  lastValidated : Option Int
deriving DecidableEq, Repr

/-- The tail of `runPreSubmissionValidation` (part_001 359-376): store the
seven results, set `lastValidated = now`, aggregate the overall status and the
submit flag. -/
def aggregateValidation (validationResults : List CheckResult) (now : Int) : Validation :=
  let hasErrors := validationResults.any (fun r => decide (r.status = .failed))
  let hasWarnings := validationResults.any (fun r => decide (r.status = .warning))
  if hasErrors then
    { preSubmissionChecks := validationResults, overallValidationStatus := .failed,
      canSubmit := false, lastValidated := some now }
  else if hasWarnings then
    -- Allow submission with warnings
    { preSubmissionChecks := validationResults, overallValidationStatus := .warning,
      canSubmit := true, lastValidated := some now }
  else
    { preSubmissionChecks := validationResults, overallValidationStatus := .passed,
      canSubmit := true, lastValidated := some now }

/-- `priorAuthorizationSchema.methods.runPreSubmissionValidation`
(part_001 328-379): run the seven checks in order (a rejected promise from any
awaited check propagates), then aggregate. -/
def runPreSubmissionValidation (dispute : DisputeRecord) (patient : Option Patient)
    (db : List PriorAuthRow) (now : Int) : Except JsError Validation := do
  let cptValidation := validateCPTCode dispute.requestDetails.serviceCode
  let icdValidation := validateICDCode dispute.requestDetails.diagnosisCode
  let demographicsValidation ← validatePatientDemographics patient now
  let insuranceValidation ← validateInsurance patient now
  let medicalNecessityValidation :=
    validateMedicalNecessity dispute.requestDetails.clinicalJustification
  let documentationValidation ← validateDocumentation dispute.denial patient now
  let historyValidation := validatePriorAuthHistory dispute.id dispute.patient
    dispute.requestDetails.serviceCode db now
  pure (aggregateValidation
    [cptValidation, icdValidation, demographicsValidation, insuranceValidation,
     medicalNecessityValidation, documentationValidation, historyValidation] now)

/-- Claim-side CPT predicate, written from the claim C7's words: the string
matches `^\d{5}(-[A-Za-z0-9]{2})?$` — five digits, optionally a hyphen and a
two-character alphanumeric modifier in either case — with the five-digit
numeric part in [10000, 99999]. -/
def claimCPTAccepted (s : String) : Bool :=
  match s.data with
  | [a, b, c, d, e] =>
      fiveDigits a b c d e &&
      decide (10000 ≤ parseDigits [a, b, c, d, e]) &&
      decide (parseDigits [a, b, c, d, e] ≤ 99999)
  | [a, b, c, d, e, hy, f, g] =>
      fiveDigits a b c d e && decide (hy = '-') &&
      (isUpperChar f || isLowerChar f || isDigitChar f) &&
      (isUpperChar g || isLowerChar g || isDigitChar g) &&
      decide (10000 ≤ parseDigits [a, b, c, d, e]) &&
      decide (parseDigits [a, b, c, d, e] ≤ 99999)
  | _ => false

/-- Amended-claim CPT predicate: as `claimCPTAccepted` but the modifier
characters must be uppercase alphanumeric (`[A-Z0-9]`), as in the source
regex. -/
def amendedCPTAccepted (s : String) : Bool :=
  match s.data with
  | [a, b, c, d, e] =>
      fiveDigits a b c d e &&
      decide (10000 ≤ parseDigits [a, b, c, d, e]) &&
      decide (parseDigits [a, b, c, d, e] ≤ 99999)
  | [a, b, c, d, e, hy, f, g] =>
      fiveDigits a b c d e && decide (hy = '-') && isModChar f && isModChar g &&
      decide (10000 ≤ parseDigits [a, b, c, d, e]) &&
      decide (parseDigits [a, b, c, d, e] ≤ 99999)
  | _ => false

/-! ## MonitorScheduler (`checkDeadlines`, deadlineMonitoringService.js 36-85) -/

/-- `this.checkInterval` (1 hour in ms). -/
def checkInterval : Int := 60 * 60 * 1000

/-- One active dispute as handled by a scheduler tick. -/
structure SchedDispute where
  id : Nat
  deadlines : Deadlines
deriving DecidableEq, Repr

/-- The `for` body of `checkDeadlines` for one dispute: update flags, send one
notification per recently-flagged unresolved flag
(`notificationService.notifyDeadlineReminder` may reject) and `save` (may
reject).  `notifyOk`/`saveOk` are the external notifier/persistence outcomes
per dispute id.  Errors inside `notifyGroupMembers` are swallowed by its own
`try/catch` and never propagate, so they are not modelled as failures. -/
def processDispute (notifyOk saveOk : Nat → Bool) (now : Int) (d : SchedDispute) :
    Except JsError SchedDispute :=
  let d1 : SchedDispute := { d with deadlines := updateDeadlineFlags d.deadlines now d.id }
  let newFlags := d1.deadlines.deadlineFlags.filter (fun flag =>
    !flag.resolved && now - flag.flaggedAt < checkInterval + 60000)
  if 0 < newFlags.length && !notifyOk d.id then
    .error (.ioFailure "notification failed")
  else if !saveOk d.id then
    .error (.ioFailure "save failed")
  else
    .ok d1

/-- The per-record loop of `checkDeadlines`: disputes are processed in order
and the first record whose processing throws aborts the loop (the surrounding
`try/catch` logs and rethrows; there is no per-record handler).  Returns the
successfully processed-and-saved records and the propagated error, if any. -/
def tickLoop (notifyOk saveOk : Nat → Bool) (now : Int) :
    List SchedDispute → List SchedDispute × Option JsError
  | [] => ([], none)
  | d :: rest =>
    match processDispute notifyOk saveOk now d with
    | .error e => ([], some e)
    | .ok d1 =>
      let r := tickLoop notifyOk saveOk now rest
      (d1 :: r.1, r.2)

/-- `DeadlineMonitoringService.checkDeadlines` (36-85): fetch the active
disputes (a rejected `find` aborts the tick with nothing processed), then run
the per-record loop. -/
def checkDeadlines (fetched : Except JsError (List SchedDispute))
    (notifyOk saveOk : Nat → Bool) (now : Int) : List SchedDispute × Option JsError :=
  match fetched with
  | .error e => ([], some e)
  | .ok activeDisputes => tickLoop notifyOk saveOk now activeDisputes

/-! ## DeadlineSummaryAggregator (`getDeadlineSummary`, deadlineMonitoringService.js 155-225) -/

/-- The `category` values assigned in the summary loop. -/
inductive SummaryCategory where
  | overdue
  | urgent
  | warning
  | normal
deriving DecidableEq, Repr

/-- One dispute as read by `getDeadlineSummary` (only id and deadline). -/
structure SummaryDispute where
  id : Nat
  responseDeadline : Option Int
deriving DecidableEq, Repr

/-- One entry of `summary.details` (fields the properties depend on;
`daysRemaining` is stored as `Math.abs(daysRemaining)`). -/
structure SummaryDetail where
  disputeId : Nat
  daysRemaining : Int
  category : SummaryCategory
deriving DecidableEq, Repr

/-- The summary object. -/
structure Summary where
  overdue : Nat
  urgent : Nat
  warning : Nat
  total : Nat
  details : List SummaryDetail
deriving DecidableEq, Repr

/-- `urgencyOrder = { overdue: 0, urgent: 1, warning: 2 }` (line 216);
`normal` never reaches `details`. -/
def urgencyOrder : SummaryCategory → Nat
  | .overdue => 0
  | .urgent => 1
  | .warning => 2
  | .normal => 3

/-- The `for` loop of `getDeadlineSummary`: bucket counts and details in
iteration order (disputes without a `responseDeadline` are skipped but still
count toward `total`). -/
def summaryCore (now : Int) : List SummaryDispute → Nat × Nat × Nat × List SummaryDetail
  | [] => (0, 0, 0, [])
  | d :: rest =>
    let r := summaryCore now rest
    match d.responseDeadline with
    | none => r
    | some deadline =>
      let daysRemaining := jsCeilDiv (deadline - now) msPerDay
      if daysRemaining < 0 then
        (r.1 + 1, r.2.1, r.2.2.1,
         { disputeId := d.id, daysRemaining := |daysRemaining|,
           category := .overdue } :: r.2.2.2)
      else if daysRemaining ≤ 3 then
        (r.1, r.2.1 + 1, r.2.2.1,
         { disputeId := d.id, daysRemaining := |daysRemaining|,
           category := .urgent } :: r.2.2.2)
      else if daysRemaining ≤ 7 then
        (r.1, r.2.1, r.2.2.1 + 1,
         { disputeId := d.id, daysRemaining := |daysRemaining|,
           category := .warning } :: r.2.2.2)
      else r

/-- `DeadlineMonitoringService.getDeadlineSummary` (155-225) on an
already-fetched dispute set: count buckets, then sort `details` by
`urgencyOrder` (JS `Array.prototype.sort`, modelled by a stable merge sort). -/
def getDeadlineSummary (disputes : List SummaryDispute) (now : Int) : Summary :=
  let r := summaryCore now disputes
  { overdue := r.1, urgent := r.2.1, warning := r.2.2.1, total := disputes.length,
    details := r.2.2.2.mergeSort
      (fun a b => decide (urgencyOrder a.category ≤ urgencyOrder b.category)) }

/-! ## Sample data for witnesses -/

/-- A fully populated, valid patient. -/
def samplePatient : Patient :=
  { firstName := some "Jane", lastName := some "Doe", dateOfBirth := some 0,
    insuranceInfo :=
      { provider := some "Acme Health", policyNumber := some "PN12345",
        groupNumber := some "G100", subscriberId := none, planName := none,
        effectiveDate := none, expirationDate := none },
    medicalInfo := { diagnosis := ["J45"] },
    documents := [{ documentType := "ehr", uploadedAt := 1000000000 }] }

/-- A dispute whose checks all pass at `now = 1000000000`. -/
def sampleDispute : DisputeRecord :=
  { id := 1, patient := 10,
    requestDetails :=
      { requestedService := "Pulmonary function test",
        serviceCode := some "99213", diagnosisCode := some "J45.1",
        clinicalJustification := some
          "Patient reports chronic pain and symptom burden; physical therapy treatment is expected to improve function." },
    denial := { denialReason := some "Not medically necessary", denialDocument := true } }

/-- The validation object that `runPreSubmissionValidation` produces on the
sample inputs. -/
def sampleValidation : Validation :=
  (runPreSubmissionValidation sampleDispute (some samplePatient) [] 1000000000).toOption.getD
    { preSubmissionChecks := [], overallValidationStatus := .pending,
      canSubmit := false, lastValidated := none }

/-! ### Helper lemmas about flag reconciliation -/

theorem unresolvedFlags_filter_resolved (fs : List DeadlineFlag) :
    unresolvedFlags (fs.filter (fun f => f.resolved)) = [] := by
  simp [unresolvedFlags, List.filter_filter]

theorem unresolvedFlags_map_resolve (fs : List DeadlineFlag) :
    unresolvedFlags (fs.map (fun f => { f with resolved := true })) = [] := by
  induction fs with
  | nil => rfl
  | cons f fs ih => simp [unresolvedFlags]

theorem filter_resolved_idem (fs : List DeadlineFlag) :
    (fs.filter (fun f => f.resolved)).filter (fun f => f.resolved)
      = fs.filter (fun f => f.resolved) := by
  simp [List.filter_filter]

theorem unresolvedFlags_append (xs ys : List DeadlineFlag) :
    unresolvedFlags (xs ++ ys) = unresolvedFlags xs ++ unresolvedFlags ys := by
  simp [unresolvedFlags, List.filter_append]

/-- The reconciliation target of one `updateDeadlineFlags` run with
`daysRemaining = dr`: the observable state of the single flag it pushes
(or none). -/
def targetFlagState (dr : Int) : List (FlagType × Int) :=
  if dr < 0 then [(FlagType.overdue, |dr|)]
  else if dr ≤ 3 then [(FlagType.urgent, dr)]
  else if dr ≤ 7 then [(FlagType.warning, dr)]
  else []

theorem updateDeadlineFlags_responseDeadline (d : Deadlines) (now : Int) (i : Nat) :
    (updateDeadlineFlags d now i).responseDeadline = d.responseDeadline := by
  unfold updateDeadlineFlags
  cases h : d.responseDeadline with
  | none => exact h
  | some rd =>
    simp only []
    split
    · rfl
    · split
      · rfl
      · split <;> rfl

theorem updateDeadlineFlags_flagState (d : Deadlines) (rd now : Int) (i : Nat)
    (h : d.responseDeadline = some rd) :
    flagState (updateDeadlineFlags d now i).deadlineFlags
      = targetFlagState (jsCeilDiv (rd - now) msPerDay) := by
  unfold updateDeadlineFlags targetFlagState
  rw [h]
  simp only []
  split
  · simp [flagState, unresolvedFlags_append, unresolvedFlags_filter_resolved, unresolvedFlags]
  · split
    · simp [flagState, unresolvedFlags_append, unresolvedFlags_filter_resolved, unresolvedFlags]
    · split
      · simp [flagState, unresolvedFlags_append, unresolvedFlags_filter_resolved, unresolvedFlags]
      · simp [flagState, unresolvedFlags_filter_resolved]

theorem updateDeadlineFlags_of_none (d : Deadlines) (now : Int) (i : Nat)
    (h : d.responseDeadline = none) : updateDeadlineFlags d now i = d := by
  unfold updateDeadlineFlags
  rw [h]

theorem flagState_length (fs : List DeadlineFlag) :
    (flagState fs).length = (unresolvedFlags fs).length := by
  simp [flagState]

theorem targetFlagState_length (dr : Int) : (targetFlagState dr).length ≤ 1 := by
  unfold targetFlagState
  split
  · simp
  · split
    · simp
    · split <;> simp

/-- After any `updateDeadlineFlags` run on a state with at most one unresolved
flag, at most one unresolved flag remains (with a present `responseDeadline`
this holds for any prior state at all). -/
theorem updateDeadlineFlags_invariant (d : Deadlines) (now : Int) (i : Nat)
    (h : (unresolvedFlags d.deadlineFlags).length ≤ 1) :
    (unresolvedFlags (updateDeadlineFlags d now i).deadlineFlags).length ≤ 1 := by
  cases hr : d.responseDeadline with
  | none => rw [updateDeadlineFlags_of_none d now i hr]; exact h
  | some rd =>
    have := updateDeadlineFlags_flagState d rd now i hr
    have hlen := congrArg List.length this
    rw [flagState_length] at hlen
    rw [hlen]
    exact targetFlagState_length _

theorem unresolvedFlags_resolveFlagInList (fs : List DeadlineFlag) (fid : Nat) :
    (unresolvedFlags (resolveFlagInList fs fid)).length ≤ (unresolvedFlags fs).length := by
  induction fs with
  | nil => simp [resolveFlagInList]
  | cons f fs ih =>
    unfold resolveFlagInList
    by_cases hid : f.id = fid
    · simp only [hid, if_pos rfl]
      by_cases hres : f.resolved <;>
        simp [unresolvedFlags, List.filter, hres]
    · simp only [if_neg hid]
      by_cases hres : f.resolved <;>
        · simp only [unresolvedFlags, List.filter, hres] at *
          simpa using ih

theorem updateDisputeDeadline_invariant (d : Deadlines) (newDeadline : Int)
    (t : DeadlineField) (now : Int) (i : Nat) :
    (unresolvedFlags (updateDisputeDeadline d newDeadline t now i).deadlineFlags).length ≤ 1 := by
  unfold updateDisputeDeadline
  apply updateDeadlineFlags_invariant
  simp [unresolvedFlags_map_resolve]

/-! ### Claim theorems: deadline tracking -/

/-- C10: when `deadlines.responseDeadline` is absent, `updateDeadlineFlags`
returns immediately and leaves the dispute — in particular its
`deadlineFlags` collection, including any unresolved flag — entirely
unchanged. -/
theorem c10_no_deadline_frame : ∀ (d : Deadlines) (now : Int) (i : Nat),
    d.responseDeadline = none →
      updateDeadlineFlags d now i = d ∧
      (updateDeadlineFlags d now i).deadlineFlags = d.deadlineFlags := by
  intro d now i h
  have heq := updateDeadlineFlags_of_none d now i h
  exact ⟨heq, by rw [heq]⟩

/-- Witness for C10 at a concrete dispute that carries a pre-existing
unresolved warning flag and no response deadline. -/
theorem c10_no_deadline_frame_witness :
    (⟨none, none, none, [⟨FlagType.warning, 5, 0, false, 1⟩]⟩ : Deadlines).responseDeadline
        = none ∧
    updateDeadlineFlags ⟨none, none, none, [⟨FlagType.warning, 5, 0, false, 1⟩]⟩ 99 7
        = ⟨none, none, none, [⟨FlagType.warning, 5, 0, false, 1⟩]⟩ :=
  ⟨rfl, (c10_no_deadline_frame
    ⟨none, none, none, [⟨FlagType.warning, 5, 0, false, 1⟩]⟩ 99 7 rfl).1⟩

/-- C2 counterexample: with `responseDeadline` 30 minutes in the past
(`now = 0`, deadline `-1800000` ms), `updateDeadlineFlags` raises an
unresolved `urgent` flag with `daysRemaining = 0` — not the `overdue` flag
with `daysRemaining = 1` the claim asserts (JS `Math.ceil` of a fraction in
`(-1, 0)` is `-0`, which is not `< 0`). -/
theorem c2_counterexample :
    flagState (updateDeadlineFlags ⟨some (-1800000), none, none, []⟩ 0 0).deadlineFlags
        = [(FlagType.urgent, 0)] ∧
    (FlagType.overdue, 1) ∉
      flagState (updateDeadlineFlags ⟨some (-1800000), none, none, []⟩ 0 0).deadlineFlags := by
  decide

/-- C2 (amended): `daysRemaining` is the ceiling of
`(responseDeadline - now) / 1 day`; a deadline 30 minutes in the future
reports 1 day remaining (an unresolved `urgent` flag with
`daysRemaining = 1`); a deadline 30 minutes in the past yields
`daysRemaining = 0` and an unresolved `urgent` flag with `daysRemaining = 0`
(not an `overdue` flag); an `overdue` flag (with `daysRemaining = 1`) first
arises once the deadline is a full day past. -/
theorem c2_amended_half_hour_boundaries :
    ∀ (now : Int) (u e : Option Int) (fs : List DeadlineFlag) (i : Nat),
    flagState (updateDeadlineFlags ⟨some (now + 1800000), u, e, fs⟩ now i).deadlineFlags
        = [(FlagType.urgent, 1)] ∧
    flagState (updateDeadlineFlags ⟨some (now - 1800000), u, e, fs⟩ now i).deadlineFlags
        = [(FlagType.urgent, 0)] ∧
    flagState (updateDeadlineFlags ⟨some (now - 86400000), u, e, fs⟩ now i).deadlineFlags
        = [(FlagType.overdue, 1)] := by
  intro now u e fs i
  refine ⟨?_, ?_, ?_⟩
  · rw [updateDeadlineFlags_flagState _ (now + 1800000) now i rfl]
    have h1 : now + 1800000 - now = 1800000 := by ring
    rw [h1]; decide
  · rw [updateDeadlineFlags_flagState _ (now - 1800000) now i rfl]
    have h1 : now - 1800000 - now = -1800000 := by ring
    rw [h1]; decide
  · rw [updateDeadlineFlags_flagState _ (now - 86400000) now i rfl]
    have h1 : now - 86400000 - now = -86400000 := by ring
    rw [h1]; decide

/-- C3: starting from the empty flag list, each of `updateDeadlineFlags`,
`updateDisputeDeadline` and `resolveDeadlineFlag` preserves the invariant
that at most one unresolved flag exists. -/
theorem c3_at_most_one_unresolved :
    (unresolvedFlags ([] : List DeadlineFlag)).length ≤ 1 ∧
    ∀ (d : Deadlines) (now newDeadline : Int) (t : DeadlineField) (i fid : Nat),
      (unresolvedFlags d.deadlineFlags).length ≤ 1 →
        (unresolvedFlags (updateDeadlineFlags d now i).deadlineFlags).length ≤ 1 ∧
        (unresolvedFlags (updateDisputeDeadline d newDeadline t now i).deadlineFlags).length ≤ 1 ∧
        (unresolvedFlags (resolveDeadlineFlag d fid).deadlineFlags).length ≤ 1 := by
  refine ⟨by simp [unresolvedFlags], ?_⟩
  intro d now newDeadline t i fid h
  refine ⟨updateDeadlineFlags_invariant d now i h,
    updateDisputeDeadline_invariant d newDeadline t now i, ?_⟩
  exact le_trans (unresolvedFlags_resolveFlagInList d.deadlineFlags fid) h

/-- Witness for C3 at a dispute holding one unresolved warning flag. -/
theorem c3_at_most_one_unresolved_witness :
    (unresolvedFlags (⟨some 864000000, none, none,
        [⟨FlagType.warning, 5, 0, false, 1⟩]⟩ : Deadlines).deadlineFlags).length ≤ 1 ∧
    (unresolvedFlags (updateDeadlineFlags
        ⟨some 864000000, none, none, [⟨FlagType.warning, 5, 0, false, 1⟩]⟩
        691200000 9).deadlineFlags).length ≤ 1 ∧
    (unresolvedFlags (updateDisputeDeadline
        ⟨some 864000000, none, none, [⟨FlagType.warning, 5, 0, false, 1⟩]⟩
        950400000 DeadlineField.responseDeadline 691200000 9).deadlineFlags).length ≤ 1 ∧
    (unresolvedFlags (resolveDeadlineFlag
        ⟨some 864000000, none, none, [⟨FlagType.warning, 5, 0, false, 1⟩]⟩
        1).deadlineFlags).length ≤ 1 := by
  have h := c3_at_most_one_unresolved.2
    ⟨some 864000000, none, none, [⟨FlagType.warning, 5, 0, false, 1⟩]⟩
    691200000 950400000 DeadlineField.responseDeadline 9 1 (by decide)
  exact ⟨by decide, h.1, h.2.1, h.2.2⟩

/-- C4: running `updateDeadlineFlags` twice with the same `now` yields the
same unresolved-flag state (same number of unresolved flags with the same
type and `daysRemaining`) as running it once. -/
theorem c4_idempotent : ∀ (d : Deadlines) (now : Int) (i j : Nat),
    flagState (updateDeadlineFlags (updateDeadlineFlags d now i) now j).deadlineFlags
      = flagState (updateDeadlineFlags d now i).deadlineFlags := by
  intro d now i j
  cases h : d.responseDeadline with
  | none =>
    rw [updateDeadlineFlags_of_none d now i h, updateDeadlineFlags_of_none d now j h]
  | some rd =>
    have h1 : (updateDeadlineFlags d now i).responseDeadline = some rd := by
      rw [updateDeadlineFlags_responseDeadline, h]
    rw [updateDeadlineFlags_flagState _ rd now j h1,
        updateDeadlineFlags_flagState d rd now i h]

/-- C5 counterexample: the escalation scenario (deadline at day 10, checks at
day 5 then day 8).  After the warning → urgent escalation, the earlier
warning flag is not retained as resolved history: exactly one flag remains in
the collection and no flag of type `warning` is present (the unresolved
warning flag was deleted by the reconciliation filter). -/
theorem c5_counterexample :
    (updateDeadlineFlags (updateDeadlineFlags (updateDeadlineFlags
        ⟨some 864000000, none, none, []⟩ 0 1) 432000000 2)
        691200000 3).deadlineFlags.length = 1 ∧
    ∀ f ∈ (updateDeadlineFlags (updateDeadlineFlags (updateDeadlineFlags
        ⟨some 864000000, none, none, []⟩ 0 1) 432000000 2)
        691200000 3).deadlineFlags, f.type ≠ FlagType.warning := by
  decide

/-- C5 (amended): the escalation sequence with `responseDeadline = day 10`
(in ms, `864000000`): at `now = 0` no flag; at day 5 exactly one unresolved
`warning` flag with `daysRemaining = 5`; at day 8 exactly one unresolved
`urgent` flag with `daysRemaining = 2`, the previous unresolved warning flag
having been deleted (not resolved) by the reconciliation; at day 11 exactly
one unresolved `overdue` flag with `daysRemaining = 1`, again replacing the
previous one.  Only flags already marked resolved are retained as history
(final conjunct). -/
theorem c5_amended_escalation :
    updateDeadlineFlags ⟨some 864000000, none, none, []⟩ 0 1
        = ⟨some 864000000, none, none, []⟩ ∧
    updateDeadlineFlags ⟨some 864000000, none, none, []⟩ 432000000 2
        = ⟨some 864000000, none, none, [⟨FlagType.warning, 5, 432000000, false, 2⟩]⟩ ∧
    updateDeadlineFlags
        ⟨some 864000000, none, none, [⟨FlagType.warning, 5, 432000000, false, 2⟩]⟩
        691200000 3
        = ⟨some 864000000, none, none, [⟨FlagType.urgent, 2, 691200000, false, 3⟩]⟩ ∧
    updateDeadlineFlags
        ⟨some 864000000, none, none, [⟨FlagType.urgent, 2, 691200000, false, 3⟩]⟩
        950400000 4
        = ⟨some 864000000, none, none, [⟨FlagType.overdue, 1, 950400000, false, 4⟩]⟩ ∧
    updateDeadlineFlags
        ⟨some 864000000, none, none, [⟨FlagType.warning, 5, 432000000, true, 2⟩]⟩
        691200000 3
        = ⟨some 864000000, none, none,
            [⟨FlagType.warning, 5, 432000000, true, 2⟩,
             ⟨FlagType.urgent, 2, 691200000, false, 3⟩]⟩ := by
  decide

/-! ### Claim theorems: validation engine -/

/-- C6 counterexample: with an unresolvable (`null`) patient, the
demographics, insurance and documentation checks do not return a `failed`
check result — they throw a `TypeError` (null dereference), and
`runPreSubmissionValidation` propagates it instead of completing. -/
theorem c6_counterexample :
    isError (validatePatientDemographics none 0) = true ∧
    isError (validateInsurance none 0) = true ∧
    isError (validateDocumentation sampleDispute.denial none 0) = true ∧
    isError (runPreSubmissionValidation sampleDispute none [] 0) = true := by
  refine ⟨rfl, rfl, rfl, ?_⟩
  rfl

/-- C6 (amended): for every dispute, when the patient record cannot be
resolved (`patient` is `null`), the patient-demographics,
insurance-verification and documentation-completeness checks each throw a
`TypeError` (null dereference) rather than returning a `failed` result, and
`runPreSubmissionValidation` propagates the exception. -/
theorem c6_amended_null_patient_throws :
    ∀ (d : DisputeRecord) (db : List PriorAuthRow) (now : Int),
    isError (validatePatientDemographics none now) = true ∧
    isError (validateInsurance none now) = true ∧
    isError (validateDocumentation d.denial none now) = true ∧
    isError (runPreSubmissionValidation d none db now) = true := by
  intro d db now
  refine ⟨rfl, rfl, rfl, ?_⟩
  simp [runPreSubmissionValidation, validatePatientDemographics, isError,
    bind, Except.bind]

theorem aggregateValidation_spec (rs : List CheckResult) (now : Int) :
    (aggregateValidation rs now).preSubmissionChecks = rs ∧
    ((aggregateValidation rs now).overallValidationStatus = .failed ↔
      ∃ r ∈ rs, r.status = .failed) ∧
    ((aggregateValidation rs now).overallValidationStatus = .warning ↔
      ((¬ ∃ r ∈ rs, r.status = .failed) ∧ ∃ r ∈ rs, r.status = .warning)) ∧
    ((aggregateValidation rs now).overallValidationStatus = .passed ↔
      ((¬ ∃ r ∈ rs, r.status = .failed) ∧ ¬ ∃ r ∈ rs, r.status = .warning)) ∧
    ((aggregateValidation rs now).canSubmit = true ↔
      (aggregateValidation rs now).overallValidationStatus ≠ .failed) := by
  by_cases h1 : rs.any (fun r => decide (r.status = .failed)) = true <;>
    by_cases h2 : rs.any (fun r => decide (r.status = .warning)) = true <;>
      simp only [List.any_eq_true, decide_eq_true_eq] at h1 h2 <;>
        simp [aggregateValidation, List.any_eq_true, h1, h2]

/-- C1: whenever `runPreSubmissionValidation` completes, the overall status is
`failed` iff some stored check failed, else `warning` iff some stored check
warned, else `passed`; and `canSubmit` is true iff the overall status is not
`failed` (warnings do not block submission).  The stored checks are exactly
the seven results. -/
theorem c1_aggregation :
    ∀ (dispute : DisputeRecord) (patient : Option Patient) (db : List PriorAuthRow)
      (now : Int) (v : Validation),
    runPreSubmissionValidation dispute patient db now = .ok v →
    v.preSubmissionChecks.length = 7 ∧
    (v.overallValidationStatus = .failed ↔
      ∃ r ∈ v.preSubmissionChecks, r.status = .failed) ∧
    (v.overallValidationStatus = .warning ↔
      ((¬ ∃ r ∈ v.preSubmissionChecks, r.status = .failed) ∧
        ∃ r ∈ v.preSubmissionChecks, r.status = .warning)) ∧
    (v.overallValidationStatus = .passed ↔
      ((¬ ∃ r ∈ v.preSubmissionChecks, r.status = .failed) ∧
        ¬ ∃ r ∈ v.preSubmissionChecks, r.status = .warning)) ∧
    (v.canSubmit = true ↔ v.overallValidationStatus ≠ .failed) := by
  intro dispute patient db now v h
  unfold runPreSubmissionValidation at h
  cases hdemo : validatePatientDemographics patient now with
  | error e => rw [hdemo] at h; simp [bind, Except.bind] at h
  | ok demo =>
    rw [hdemo] at h
    cases hins : validateInsurance patient now with
    | error e => rw [hins] at h; simp [bind, Except.bind] at h
    | ok ins =>
      rw [hins] at h
      cases hdoc : validateDocumentation dispute.denial patient now with
      | error e => rw [hdoc] at h; simp [bind, Except.bind] at h
      | ok docs =>
        rw [hdoc] at h
        simp only [bind, Except.bind, pure, Except.pure] at h
        injection h with h
        subst h
        have hs := aggregateValidation_spec
          [validateCPTCode dispute.requestDetails.serviceCode,
           validateICDCode dispute.requestDetails.diagnosisCode,
           demo, ins,
           validateMedicalNecessity dispute.requestDetails.clinicalJustification,
           docs,
           validatePriorAuthHistory dispute.id dispute.patient
             dispute.requestDetails.serviceCode db now] now
        rw [hs.1]
        exact ⟨rfl, hs.2.1, hs.2.2.1, hs.2.2.2.1, hs.2.2.2.2⟩

set_option maxRecDepth 4000 in
/-- Witness for C1 on the fully valid sample inputs. -/
theorem c1_aggregation_witness :
    sampleValidation.preSubmissionChecks.length = 7 ∧
    (sampleValidation.canSubmit = true ↔
      sampleValidation.overallValidationStatus ≠ .failed) := by
  have h := c1_aggregation sampleDispute (some samplePatient) [] 1000000000
    sampleValidation (by rfl)
  exact ⟨h.1, h.2.2.2.2⟩

/-! ### Claim theorems: deadline summary -/

theorem summaryCore_counts (now : Int) :
    ∀ l : List SummaryDispute,
      (summaryCore now l).1 + (summaryCore now l).2.1 + (summaryCore now l).2.2.1
        ≤ l.length := by
  intro l
  induction l with
  | nil => simp [summaryCore]
  | cons d rest ih =>
    unfold summaryCore
    cases hd : d.responseDeadline with
    | none => simp; omega
    | some deadline =>
      simp only []
      split
      · simp; omega
      · split
        · simp; omega
        · split
          · simp; omega
          · simp; omega

/-- C9: the summary buckets satisfy `overdue + urgent + warning ≤ total`,
`total` is the number of disputes considered, and `details` is sorted
non-decreasing by severity rank (`urgencyOrder`: overdue 0, urgent 1,
warning 2). -/
theorem c9_summary : ∀ (disputes : List SummaryDispute) (now : Int),
    (getDeadlineSummary disputes now).overdue + (getDeadlineSummary disputes now).urgent +
        (getDeadlineSummary disputes now).warning ≤ (getDeadlineSummary disputes now).total ∧
    (getDeadlineSummary disputes now).total = disputes.length ∧
    (getDeadlineSummary disputes now).details.Pairwise
        (fun a b => urgencyOrder a.category ≤ urgencyOrder b.category) := by
  intro disputes now
  refine ⟨?_, rfl, ?_⟩
  · exact summaryCore_counts now disputes
  · have htrans : ∀ a b c : SummaryDetail,
        decide (urgencyOrder a.category ≤ urgencyOrder b.category) = true →
        decide (urgencyOrder b.category ≤ urgencyOrder c.category) = true →
        decide (urgencyOrder a.category ≤ urgencyOrder c.category) = true := by
      intro a b c hab hbc
      simp only [decide_eq_true_eq] at *
      exact le_trans hab hbc
    have htotal : ∀ a b : SummaryDetail,
        (decide (urgencyOrder a.category ≤ urgencyOrder b.category) ||
         decide (urgencyOrder b.category ≤ urgencyOrder a.category)) = true := by
      intro a b
      simp only [Bool.or_eq_true, decide_eq_true_eq]
      exact Nat.le_total _ _
    have hs := List.sorted_mergeSort htrans htotal (summaryCore now disputes).2.2.2
    exact hs.imp (fun h => of_decide_eq_true h)

/-! ### Claim theorems: scheduler tick -/

theorem tickLoop_all_ok (notifyOk saveOk : Nat → Bool) (now : Int) :
    ∀ ds : List SchedDispute,
      (∀ p ∈ ds, isError (processDispute notifyOk saveOk now p) = false) →
      (tickLoop notifyOk saveOk now ds).2 = none ∧
      (tickLoop notifyOk saveOk now ds).1.length = ds.length := by
  intro ds
  induction ds with
  | nil => intro _; exact ⟨rfl, rfl⟩
  | cons p rest ih =>
    intro h
    have hp := h p (by simp)
    cases hproc : processDispute notifyOk saveOk now p with
    | error e => rw [hproc] at hp; simp [isError] at hp
    | ok d1 =>
      have hrest := ih (fun q hq => h q (by simp [hq]))
      simp only [tickLoop, hproc]
      exact ⟨hrest.1, by simp [hrest.2]⟩

theorem tickLoop_prefix_fail (notifyOk saveOk : Nat → Bool) (now : Int) :
    ∀ (pre : List SchedDispute) (d : SchedDispute) (rest : List SchedDispute),
      (∀ p ∈ pre, isError (processDispute notifyOk saveOk now p) = false) →
      isError (processDispute notifyOk saveOk now d) = true →
      (tickLoop notifyOk saveOk now (pre ++ d :: rest)).1.length = pre.length ∧
      (tickLoop notifyOk saveOk now (pre ++ d :: rest)).2.isSome = true := by
  intro pre
  induction pre with
  | nil =>
    intro d rest _ hfail
    cases hproc : processDispute notifyOk saveOk now d with
    | error e => simp [tickLoop, hproc]
    | ok d1 => rw [hproc] at hfail; simp [isError] at hfail
  | cons p pre ih =>
    intro d rest hok hfail
    have hp := hok p (by simp)
    cases hproc : processDispute notifyOk saveOk now p with
    | error e => rw [hproc] at hp; simp [isError] at hp
    | ok d1 =>
      have htail := ih d rest (fun q hq => hok q (by simp [hq])) hfail
      simp only [List.cons_append, tickLoop, hproc]
      exact ⟨by simp [htail.1], htail.2⟩

/-- C8 counterexample: two active disputes; persistence fails for the first.
The claim says the second is still processed; in fact the tick aborts with the
error and processes nothing further — the second dispute is absent from the
processed set, although it processes fine on its own. -/
theorem c8_counterexample :
    checkDeadlines
        (.ok [⟨1, ⟨some 0, none, none, []⟩⟩, ⟨2, ⟨some 0, none, none, []⟩⟩])
        (fun _ => true) (fun i => decide (i ≠ 1)) 0
      = ([], some (.ioFailure "save failed")) ∧
    checkDeadlines (.ok [⟨2, ⟨some 0, none, none, []⟩⟩])
        (fun _ => true) (fun i => decide (i ≠ 1)) 0
      = ([⟨2, ⟨some 0, none, none, [⟨FlagType.urgent, 0, 0, false, 2⟩]⟩⟩], none) := by
  exact ⟨rfl, rfl⟩

/-- C8 (amended): a persistence or notification failure while processing one
dispute aborts the rest of the tick: the error propagates (the surrounding
`catch` rethrows after logging) and only the disputes before the failing
record are processed; when every record processes cleanly the whole set is
processed with no error.  A failure to fetch the active-dispute set aborts
the tick with nothing processed.  (Only failures inside group-member
notification are isolated, by `notifyGroupMembers`' own `try/catch`.) -/
theorem c8_amended_tick_aborts :
    (∀ (e : JsError) (notifyOk saveOk : Nat → Bool) (now : Int),
      checkDeadlines (.error e) notifyOk saveOk now = ([], some e)) ∧
    (∀ (notifyOk saveOk : Nat → Bool) (now : Int)
       (pre : List SchedDispute) (d : SchedDispute) (rest : List SchedDispute),
      (∀ p ∈ pre, isError (processDispute notifyOk saveOk now p) = false) →
      isError (processDispute notifyOk saveOk now d) = true →
      (checkDeadlines (.ok (pre ++ d :: rest)) notifyOk saveOk now).1.length
          = pre.length ∧
      (checkDeadlines (.ok (pre ++ d :: rest)) notifyOk saveOk now).2.isSome = true) ∧
    (∀ (notifyOk saveOk : Nat → Bool) (now : Int) (ds : List SchedDispute),
      (∀ p ∈ ds, isError (processDispute notifyOk saveOk now p) = false) →
      (checkDeadlines (.ok ds) notifyOk saveOk now).2 = none ∧
      (checkDeadlines (.ok ds) notifyOk saveOk now).1.length = ds.length) := by
  refine ⟨fun e notifyOk saveOk now => rfl, ?_, ?_⟩
  · intro notifyOk saveOk now pre d rest hok hfail
    exact tickLoop_prefix_fail notifyOk saveOk now pre d rest hok hfail
  · intro notifyOk saveOk now ds hok
    exact tickLoop_all_ok notifyOk saveOk now ds hok

/-- Witness for C8 (amended) on a concrete three-dispute tick whose middle
record's save fails. -/
theorem c8_amended_tick_aborts_witness :
    (checkDeadlines
        (.ok ([⟨2, ⟨some 0, none, none, []⟩⟩] ++
          ⟨1, ⟨some 0, none, none, []⟩⟩ :: [⟨3, ⟨some 0, none, none, []⟩⟩]))
        (fun _ => true) (fun i => decide (i ≠ 1)) 0).1.length = 1 ∧
    (checkDeadlines
        (.ok ([⟨2, ⟨some 0, none, none, []⟩⟩] ++
          ⟨1, ⟨some 0, none, none, []⟩⟩ :: [⟨3, ⟨some 0, none, none, []⟩⟩]))
        (fun _ => true) (fun i => decide (i ≠ 1)) 0).2.isSome = true ∧
    (checkDeadlines (.ok [⟨2, ⟨some 0, none, none, []⟩⟩, ⟨3, ⟨some 0, none, none, []⟩⟩])
        (fun _ => true) (fun i => decide (i ≠ 1)) 0).2 = none := by
  have h2 := c8_amended_tick_aborts.2.1 (fun _ => true) (fun i => decide (i ≠ 1)) 0
    [⟨2, ⟨some 0, none, none, []⟩⟩] ⟨1, ⟨some 0, none, none, []⟩⟩
    [⟨3, ⟨some 0, none, none, []⟩⟩] (by decide) (by decide)
  have h3 := c8_amended_tick_aborts.2.2 (fun _ => true) (fun i => decide (i ≠ 1)) 0
    [⟨2, ⟨some 0, none, none, []⟩⟩, ⟨3, ⟨some 0, none, none, []⟩⟩] (by decide)
  exact ⟨h2.1, h2.2, h3.1⟩

/-! ### Claim theorems: CPT check -/

theorem rangeBool_eq (v : Nat) :
    (decide (10000 ≤ v) && decide (v ≤ 99999))
      = !(decide (v < 10000) || decide (99999 < v)) := by
  by_cases h1 : 10000 ≤ v <;> by_cases h2 : v ≤ 99999 <;>
    simp [h1, h2, Nat.lt_of_not_le, Nat.not_le.mpr]

theorem digit_ne_dash (c : Char) (hc : isDigitChar c = true) : ¬ c = '-' := by
  intro heq
  subst heq
  simp only [isDigitChar, Bool.and_eq_true, decide_eq_true_eq] at hc
  exact absurd hc (by decide)

theorem takeWhile_digit_step (c : Char) (l : List Char) (hc : isDigitChar c = true) :
    List.takeWhile (fun x => decide (x ≠ '-')) (c :: l)
      = c :: List.takeWhile (fun x => decide (x ≠ '-')) l := by
  simp [List.takeWhile_cons, digit_ne_dash c hc]

/-- The amended-claim predicate coincides with the source's pattern test plus
range test (`parseInt` of the part before the hyphen). -/
theorem amendedCPT_eq (s : String) :
    amendedCPTAccepted s
      = (cptPatternTest s &&
         !(decide (cptNumericPart s < 10000) || decide (99999 < cptNumericPart s))) := by
  obtain ⟨l⟩ := s
  rcases l with _ | ⟨a, _ | ⟨b, _ | ⟨c, _ | ⟨d, _ | ⟨e, _ | ⟨hy, _ | ⟨m1, _ | ⟨m2, _ | ⟨x, rest⟩⟩⟩⟩⟩⟩⟩⟩⟩
  · rfl
  · rfl
  · rfl
  · rfl
  · rfl
  · -- [a, b, c, d, e]
    unfold amendedCPTAccepted cptPatternTest cptNumericPart
    by_cases hfd : fiveDigits a b c d e = true
    · obtain ⟨⟨⟨⟨ha, hb⟩, hc⟩, hd⟩, he⟩ : (((isDigitChar a = true ∧ isDigitChar b = true) ∧
          isDigitChar c = true) ∧ isDigitChar d = true) ∧ isDigitChar e = true := by
        simpa [fiveDigits, Bool.and_eq_true] using hfd
      have h5 : List.takeWhile (fun x => decide (x ≠ '-')) [a, b, c, d, e]
          = [a, b, c, d, e] := by
        rw [takeWhile_digit_step a _ ha, takeWhile_digit_step b _ hb,
            takeWhile_digit_step c _ hc, takeWhile_digit_step d _ hd,
            takeWhile_digit_step e _ he]
        rfl
      simp only [h5, hfd, Bool.true_and]
      exact rangeBool_eq (parseDigits [a, b, c, d, e])
    · have hfd' : fiveDigits a b c d e = false := by simpa using hfd
      simp [hfd']
  · rfl
  · rfl
  · -- [a, b, c, d, e, hy, m1, m2]
    unfold amendedCPTAccepted cptPatternTest cptNumericPart
    by_cases hfd : fiveDigits a b c d e = true
    · by_cases hhy : hy = '-'
      · subst hhy
        obtain ⟨⟨⟨⟨ha, hb⟩, hc⟩, hd⟩, he⟩ : (((isDigitChar a = true ∧ isDigitChar b = true) ∧
            isDigitChar c = true) ∧ isDigitChar d = true) ∧ isDigitChar e = true := by
          simpa [fiveDigits, Bool.and_eq_true] using hfd
        have h8 : List.takeWhile (fun x => decide (x ≠ '-')) [a, b, c, d, e, '-', m1, m2]
            = [a, b, c, d, e] := by
          rw [takeWhile_digit_step a _ ha, takeWhile_digit_step b _ hb,
              takeWhile_digit_step c _ hc, takeWhile_digit_step d _ hd,
              takeWhile_digit_step e _ he]
          rfl
        simp only [h8, hfd, Bool.true_and, decide_eq_true_eq]
        cases him1 : isModChar m1 <;> cases him2 : isModChar m2 <;>
          simp [rangeBool_eq (parseDigits [a, b, c, d, e])]
      · have hxy : decide (hy = '-') = false := by simp [hhy]
        simp [hxy]
    · have hfd' : fiveDigits a b c d e = false := by simpa using hfd
      simp [hfd']
  · rfl

/-- C7 counterexample: `"12345-ab"` matches the claim's case-insensitive
pattern with its numeric part `12345 ∈ [10000, 99999]`, so the claim says the
CPT check passes; the source regex only admits uppercase modifier characters,
so the check fails. -/
theorem c7_counterexample :
    claimCPTAccepted "12345-ab" = true ∧
    (validateCPTCode (some "12345-ab")).status = CheckStatus.failed := by
  decide

/-- C7 (amended): the CPT check passes iff the string matches
`^\d{5}(-[A-Z0-9]{2})?$` — the modifier must be uppercase alphanumeric — with
the five-digit numeric part in [10000, 99999]; for any other string
(missing, empty, malformed, lowercase modifier, or out of range) it returns
`failed`, and it never returns `warning`. -/
theorem c7_amended_uppercase : ∀ (s : Option String),
    ((validateCPTCode s).status = CheckStatus.passed ↔
      amendedCPTAccepted (s.getD "") = true) ∧
    ((validateCPTCode s).status = CheckStatus.passed ∨
      (validateCPTCode s).status = CheckStatus.failed) := by
  intro s
  cases s with
  | none => exact ⟨by decide, Or.inr rfl⟩
  | some str =>
    by_cases hempty : str = ""
    · subst hempty
      exact ⟨by decide, Or.inr rfl⟩
    · have hfal : jsStrFalsy (some str) = false := by simp [jsStrFalsy, hempty]
      have hamend := amendedCPT_eq str
      unfold validateCPTCode
      rw [hfal]
      simp only [Option.getD, Bool.false_eq_true, if_false]
      by_cases hpat : cptPatternTest str = true
      · by_cases hlo : cptNumericPart str < 10000
        · simp [hpat, hlo, hamend]
        · by_cases hhi : 99999 < cptNumericPart str
          · simp [hpat, hlo, hhi, hamend]
          · simp [hpat, hlo, hhi, hamend]
      · have hpat' : cptPatternTest str = false := by simpa using hpat
        simp [hpat', hamend]

end PriorAuth
